import Mathlib

set_option maxRecDepth 16000

/-!
Verification of the PDF title extractor in `src/main.py`.

Real-valued quantities of the source (font sizes in points, page-relative
coordinates) are modelled exactly over `ℚ`; Python strings are modelled as
Lean strings, with the ASCII semantics of the Python string methods the
code uses (`strip`, `isdigit`, `lower`, `upper`, `isupper`, `startswith`).
-/

/-- ASCII whitespace stripped by Python `str.strip()`. -/
def pyIsSpace (c : Char) : Bool :=
  c = ' ' || c = '\t' || c = '\n' || c = '\r' || c = '\x0b' || c = '\x0c'

/-- Python `str.strip()` on the underlying character list: drop whitespace
from both ends. -/
def pyStripList (l : List Char) : List Char :=
  ((l.dropWhile pyIsSpace).reverse.dropWhile pyIsSpace).reverse

/-- Python `text.strip()`. -/
def pyStrip (s : String) : String :=
  String.mk (pyStripList s.data)

/-- Python `text.isdigit()`: non-empty and every character a digit. -/
def pyIsDigit (s : String) : Bool :=
  !s.data.isEmpty && s.data.all Char.isDigit

/-- Python `text.lower()`. -/
def pyLower (s : String) : String :=
  String.mk (s.data.map Char.toLower)

/-- Python `text.upper()`. The scorer itself never calls `upper`; this
definition only serves to state the specification wording
`text.upper() == text` so it can be compared with what the code computes. -/
def pyToUpper (s : String) : String :=
  String.mk (s.data.map Char.toUpper)

/-- Python `text.isupper()`: at least one cased character, and no cased
character is lowercase. -/
def pyIsUpper (s : String) : Bool :=
  s.data.any Char.isAlpha && s.data.all (fun c => !c.isLower)

/-- Python `s.startswith(p)`. -/
def pyStartsWith (s p : String) : Bool :=
  p.data.isPrefixOf s.data

/-- The `TextElement` record of `src/main.py` (lines 6 to 19), with the
same field names and the same defaults. -/
structure TextElement where
  text : String
  font_size : ℚ
  x_position : ℚ
  y_position : ℚ
  page_width : ℚ
  page_height : ℚ
  is_bold : Bool := false
  is_italic : Bool := false
  width : ℚ := 0
  space_above : ℚ := 0
  space_below : ℚ := 0
  deriving DecidableEq

/-- The ad hoc page object of line 71: a bundle of the text elements of
one page in reading order. -/
structure Page where
  text_elements : List TextElement
  deriving DecidableEq

/-- One entry of `title_candidates` (lines 87 to 94). The source stores
`position` as a two-decimal display string built from
`(x_position, y_position)`; it is kept here as that underlying pair,
which nothing reads back. -/
structure Candidate where
  text : String
  score : Int
  page : Nat
  font_size : ℚ
  is_bold : Bool
  position : ℚ × ℚ
  deriving DecidableEq

/-- Signal 1 of `calculate_title_score` (lines 105 to 109): font size. -/
def font_size_score (text_element : TextElement) : Int :=
  if text_element.font_size ≥ 18 then 40
  else if text_element.font_size ≥ 14 then 20
  else 0

/-- Signal 2 (lines 111 to 115): page position bonus. -/
def page_position_score (page_num : Nat) : Int :=
  if page_num = 0 then 25
  else if page_num = 1 then 10
  else 0

/-- Signal 3 (lines 117 to 119): vertical position on the page. -/
def vertical_position_score (text_element : TextElement) : Int :=
  if text_element.y_position > 0.7 then 15 else 0

/-- `is_centered` (lines 156 to 160): the horizontal midpoint of the span
lies strictly within 0.1 of the page center. -/
def is_centered (text_element : TextElement) : Bool :=
  decide (|text_element.x_position + text_element.width / 2 - 0.5| < 0.1)

/-- `is_left_aligned` (lines 162 to 163). -/
def is_left_aligned (text_element : TextElement) : Bool :=
  decide (text_element.x_position < 0.2)

/-- Signal 4 (lines 121 to 125): horizontal alignment, an if/elif chain. -/
def alignment_score (text_element : TextElement) : Int :=
  if is_centered text_element then 15
  else if is_left_aligned text_element then 5
  else 0

/-- Signal 5 (lines 127 to 131): text formatting (bold and italic). -/
def formatting_score (text_element : TextElement) : Int :=
  (if text_element.is_bold then 10 else 0) + (if text_element.is_italic then 5 else 0)

/-- Signal 6 (lines 133 to 138): length of the stripped text. -/
def text_length_score (text_element : TextElement) : Int :=
  let text_length := (pyStrip text_element.text).length
  if 10 ≤ text_length ∧ text_length ≤ 100 then 10
  else if text_length > 200 then -20
  else 0

/-- Signal 7 (lines 140 to 142): all caps bonus. The code tests
`text.isupper()` on the raw text together with the stripped length. -/
def all_caps_score (text_element : TextElement) : Int :=
  if pyIsUpper text_element.text = true ∧ 5 < (pyStrip text_element.text).length then 8
  else 0

/-- `has_significant_whitespace_around` (lines 165 to 167). -/
def has_significant_whitespace_around (text_element : TextElement) : Bool :=
  decide (text_element.y_position > 0.8) || decide (text_element.y_position < 0.2)

/-- Signal 8 (lines 144 to 146): whitespace isolation. -/
def whitespace_isolation_score (text_element : TextElement) : Int :=
  if has_significant_whitespace_around text_element then 10 else 0

/-- `is_header_footer` (lines 169 to 172): top or bottom 5 percent. -/
def is_header_footer (text_element : TextElement) : Bool :=
  decide (text_element.y_position > 0.95) || decide (text_element.y_position < 0.05)

/-- `is_page_number` (lines 174 to 179): the stripped text is purely
digits, or starts with page after lowercasing, or is at most 3 long. -/
def is_page_number (text_element : TextElement) : Bool :=
  let text := pyStrip text_element.text
  pyIsDigit text || pyStartsWith (pyLower text) ("page") || decide (text.length ≤ 3)

/-- Signal 9 (lines 148 to 152): exclusion of common non-title patterns. -/
def pattern_exclusion_score (text_element : TextElement) : Int :=
  (if is_header_footer text_element then -50 else 0)
    + (if is_page_number text_element then -50 else 0)

/-- `calculate_title_score` (lines 102 to 154). The source accumulates the
nine commented signal groups into `score` with successive additions; the
sum of the per-group contributions below is exactly that accumulated
value, since every group depends only on the element and the page index. -/
def calculate_title_score (text_element : TextElement) (page_num : Nat) : Int :=
  font_size_score text_element + page_position_score page_num
    + vertical_position_score text_element + alignment_score text_element
    + formatting_score text_element + text_length_score text_element
    + all_caps_score text_element + whitespace_isolation_score text_element
    + pattern_exclusion_score text_element

/-- The candidate record appended for a positively scored element
(lines 87 to 94). -/
def mkCandidate (text_element : TextElement) (score : Int) (page_num : Nat) : Candidate :=
  { text := text_element.text
    score := score
    page := page_num + 1
    font_size := text_element.font_size
    is_bold := text_element.is_bold
    position := (text_element.x_position, text_element.y_position) }

/-- Candidates contributed by one page of the collection loop
(lines 84 to 94): score each element, keep it when the score is
positive. -/
def pageCandidates (page_num : Nat) (page : Page) : List Candidate :=
  page.text_elements.filterMap (fun text_element =>
    let score := calculate_title_score text_element page_num
    if score > 0 then some (mkCandidate text_element score page_num) else none)

/-- The candidate-collecting loop of `extract_title` (lines 80 to 94):
enumerate the pages from 0 and break as soon as `page_num > 2`. -/
def titleCandidates (page_num : Nat) (pdf_pages : List Page) : List Candidate :=
  match pdf_pages with
  | [] => []
  | page :: rest =>
    if page_num > 2 then []
    else pageCandidates page_num page ++ titleCandidates (page_num + 1) rest

/-- The comparator realising line 98, a stable sort by descending score:
an element sorts no later than another exactly when its score is at least
as large. -/
def scoreDescLE (a b : Candidate) : Bool :=
  decide (b.score ≤ a.score)

/-- `extract_title` (lines 77 to 100). Sorting an empty candidate list
leaves it empty, so sorting before the emptiness test is equivalent to
the source, which sorts only inside the non-empty branch. -/
def extract_title (pdf_pages : List Page) : String × List Candidate :=
  match (titleCandidates 0 pdf_pages).mergeSort scoreDescLE with
  | c :: rest => (c.text, c :: rest)
  | [] => ("Untitled Document", [])

/-- Raw span data handed over by the extraction library, as read on
lines 39 to 53: text, font size, font flags and the bounding box given as
left, top, right, bottom in page points. -/
structure Span where
  text : String
  size : ℚ
  flags : Nat
  x0 : ℚ
  y0 : ℚ
  x1 : ℚ
  y1 : ℚ
  deriving DecidableEq

/-- The per-span body of `extract_text_elements_from_pdf`
(lines 38 to 66): strip the text, drop the span when it becomes empty,
decode the bold bit 4 and the italic bit 1 of the font flags, normalize
the bounding box to page-relative coordinates and flip the Y axis. -/
def normalize_span (page_width page_height : ℚ) (span : Span) : Option TextElement :=
  let text := pyStrip span.text
  if text = "" then none
  else some
    { text := text
      font_size := span.size
      x_position := span.x0 / page_width
      y_position := 1 - span.y0 / page_height
      page_width := page_width
      page_height := page_height
      is_bold := span.flags.testBit 4
      is_italic := span.flags.testBit 1
      width := (span.x1 - span.x0) / page_width }

/-- One page worth of spans turned into a `Page` (lines 27 to 72);
span order follows the block, line, span traversal of the source. -/
def normalize_page (page_width page_height : ℚ) (spans : List Span) : Page :=
  { text_elements := spans.filterMap (normalize_span page_width page_height) }

/-- A raw parsed document page: its dimensions and reading-ordered
spans. -/
structure RawPage where
  page_width : ℚ
  page_height : ℚ
  spans : List Span

/-- `extract_text_elements_from_pdf` (lines 21 to 75) on an already
parsed document: the loop runs over `range(min(3, len(doc)))`, that is,
over the first three pages at most. -/
def extract_text_elements (doc : List RawPage) : List Page :=
  (doc.take 3).map (fun p => normalize_page p.page_width p.page_height p.spans)

/-- An entry of the output outline; the baseline writer never constructs
one (the outline written on line 224 is always empty). -/
structure OutlineEntry where
  level : String
  text : String
  page : Nat
  deriving DecidableEq

/-- The JSON record written per document (lines 222 to 225 and
240 to 243). -/
structure OutputRecord where
  title : String
  outline : List OutlineEntry
  deriving DecidableEq

/-- The fallback record written on any per-document exception
(lines 240 to 243). -/
def fallback_data : OutputRecord :=
  { title := "Untitled Document", outline := [] }

/-- The per-file `try` body of `process_pdfs` (lines 196 to 233) with the
fallible part made explicit: any exception raised while handling the
document (in particular a PDF that cannot be opened or parsed) is the
`error` case and takes the `except` path of lines 234 to 247. -/
def process_pdf (parsed : Except String (List Page)) : OutputRecord :=
  match parsed with
  | Except.ok pdf_pages => { title := (extract_title pdf_pages).1, outline := [] }
  | Except.error _ => fallback_data

/-- `process_pdfs` (lines 181 to 247) over an abstract batch: each input
file is its stem together with the outcome of parsing it, and the result
is the list of written output files, as pairs of file name and record. -/
def process_pdfs (inputs : List (String × Except String (List Page))) : List (String × OutputRecord) :=
  inputs.map (fun input => (input.1 ++ ".json", process_pdf input.2))

/-! Helper lemmas about the embedded definitions. -/

lemma scoreDescLE_trans : ∀ a b c : Candidate,
    scoreDescLE a b → scoreDescLE b c → scoreDescLE a c := by
  intro a b c hab hbc
  simp only [scoreDescLE, decide_eq_true_eq] at *
  omega

lemma scoreDescLE_total : ∀ a b : Candidate, scoreDescLE a b || scoreDescLE b a := by
  intro a b
  simp only [scoreDescLE, Bool.or_eq_true, decide_eq_true_eq]
  omega

/-- The candidate list returned by `extract_title` is always the stable
descending sort of the collected candidates. -/
lemma extract_title_snd_eq (pdf_pages : List Page) :
    (extract_title pdf_pages).2 = (titleCandidates 0 pdf_pages).mergeSort scoreDescLE := by
  unfold extract_title
  split
  · next c rest heq => rw [← heq]
  · next heq => rw [heq]

/-- The returned title is the text of the head candidate, or the fallback
string when there is none. -/
lemma extract_title_fst_eq (pdf_pages : List Page) :
    (extract_title pdf_pages).1
      = (((extract_title pdf_pages).2).map Candidate.text).headD ("Untitled Document") := by
  unfold extract_title
  split <;> simp

/-- Stability of the sort, phrased through score classes: the candidates
of any one score appear in the sorted list exactly as they appear in the
unsorted one. -/
lemma filter_score_mergeSort (l : List Candidate) (s : Int) :
    (l.mergeSort scoreDescLE).filter (fun c => decide (c.score = s))
      = l.filter (fun c => decide (c.score = s)) := by
  set p : Candidate → Bool := fun c => decide (c.score = s) with hp
  have hmem : ∀ a ∈ l.filter p, a.score = s := by
    intro a ha
    have := (List.mem_filter.mp ha).2
    simpa [hp] using this
  have hpair : (l.filter p).Pairwise (fun a b => scoreDescLE a b = true) := by
    apply List.pairwise_of_forall_mem_list
    intro a ha b hb
    simp only [scoreDescLE, decide_eq_true_eq]
    rw [hmem a ha, hmem b hb]
  have hsub : (l.filter p).Sublist (l.mergeSort scoreDescLE) :=
    List.sublist_mergeSort scoreDescLE_trans scoreDescLE_total hpair (List.filter_sublist l)
  have hself : (l.filter p).filter p = l.filter p := by
    apply List.filter_eq_self.mpr
    intro a ha
    simp [hp, hmem a ha]
  have hsub2 : (l.filter p).Sublist ((l.mergeSort scoreDescLE).filter p) := by
    have := List.Sublist.filter p hsub
    rwa [hself] at this
  have hperm : ((l.mergeSort scoreDescLE).filter p).Perm (l.filter p) :=
    (List.mergeSort_perm l scoreDescLE).filter p
  exact (hsub2.eq_of_length hperm.length_eq.symm).symm

/-- Pages beyond the break point of the loop never contribute. -/
lemma titleCandidates_take (k : Nat) (l : List Page) (hk : k ≤ 3) :
    titleCandidates k l = titleCandidates k (l.take (3 - k)) := by
  induction l generalizing k with
  | nil => simp
  | cons p rest ih =>
    by_cases h2 : k > 2
    · have h0 : 3 - k = 0 := by omega
      rw [h0]
      simp [titleCandidates, h2]
    · have h3 : 3 - k = (3 - (k + 1)) + 1 := by omega
      rw [h3, List.take_succ_cons, titleCandidates, titleCandidates, if_neg h2, if_neg h2,
        ih (k + 1) (by omega)]

/-- A candidate contributed by one page has a positive score and records
that page, one-based. -/
lemma mem_pageCandidates {c : Candidate} {k : Nat} {page : Page}
    (h : c ∈ pageCandidates k page) : 0 < c.score ∧ c.page = k + 1 := by
  simp only [pageCandidates, List.mem_filterMap] at h
  obtain ⟨e, _, hfe⟩ := h
  split at hfe
  · next hs =>
    cases hfe with
    | refl => exact ⟨hs, rfl⟩
  · exact absurd hfe (by simp)

/-- Every collected candidate has a positive score and a page field
between the starting page and 3. -/
lemma mem_titleCandidates {c : Candidate} :
    ∀ {k : Nat} {l : List Page}, c ∈ titleCandidates k l →
      0 < c.score ∧ k + 1 ≤ c.page ∧ c.page ≤ 3 := by
  intro k l
  induction l generalizing k with
  | nil => intro h; simp [titleCandidates] at h
  | cons p rest ih =>
    intro h
    rw [titleCandidates] at h
    split at h
    · simp at h
    · next h2 =>
      rcases List.mem_append.mp h with hp | hr
      · obtain ⟨hs, hpage⟩ := mem_pageCandidates hp
        omega
      · obtain ⟨hs, hlo, hhi⟩ := ih hr
        omega

/-- When every element of every page scores nonpositively, the collection
loop returns no candidate. -/
lemma titleCandidates_eq_nil (k : Nat) (l : List Page)
    (h : ∀ (n : Nat) (hn : n < l.length), ∀ e ∈ l[n].text_elements,
      calculate_title_score e (k + n) ≤ 0) :
    titleCandidates k l = [] := by
  induction l generalizing k with
  | nil => rfl
  | cons p rest ih =>
    rw [titleCandidates]
    split
    · rfl
    · next h2 =>
      have hpage : pageCandidates k p = [] := by
        rw [pageCandidates, List.filterMap_eq_nil_iff]
        intro e he
        have h0 := h 0 (by simp) e (by simpa using he)
        rw [Nat.add_zero] at h0
        rw [if_neg (by omega)]
      rw [hpage, List.nil_append]
      apply ih
      intro n hn e he
      have hx := h (n + 1) (by simpa using Nat.succ_lt_succ hn) e (by simpa using he)
      have harith : k + 1 + n = k + (n + 1) := by omega
      rw [harith]
      exact hx

/-- A span in the header or footer band is always in the whitespace
isolation band as well. -/
lemma header_footer_whitespace {e : TextElement}
    (h : is_header_footer e = true) : has_significant_whitespace_around e = true := by
  simp only [is_header_footer, Bool.or_eq_true, decide_eq_true_eq] at h
  simp only [has_significant_whitespace_around, Bool.or_eq_true, decide_eq_true_eq]
  rcases h with h | h
  · left; linarith
  · right; linarith

lemma font_size_score_bounds (e : TextElement) :
    0 ≤ font_size_score e ∧ font_size_score e ≤ 40 := by
  unfold font_size_score; split_ifs <;> omega

lemma page_position_score_bounds (n : Nat) :
    0 ≤ page_position_score n ∧ page_position_score n ≤ 25 := by
  unfold page_position_score; split_ifs <;> omega

lemma vertical_position_score_bounds (e : TextElement) :
    0 ≤ vertical_position_score e ∧ vertical_position_score e ≤ 15 := by
  unfold vertical_position_score; split_ifs <;> omega

lemma alignment_score_bounds (e : TextElement) :
    0 ≤ alignment_score e ∧ alignment_score e ≤ 15 := by
  unfold alignment_score; split_ifs <;> omega

lemma formatting_score_bounds (e : TextElement) :
    0 ≤ formatting_score e ∧ formatting_score e ≤ 15 := by
  unfold formatting_score; split_ifs <;> omega

lemma text_length_score_bounds (e : TextElement) :
    -20 ≤ text_length_score e ∧ text_length_score e ≤ 10 := by
  simp only [text_length_score]; split_ifs <;> omega

lemma all_caps_score_bounds (e : TextElement) :
    0 ≤ all_caps_score e ∧ all_caps_score e ≤ 8 := by
  unfold all_caps_score; split_ifs <;> omega

lemma whitespace_isolation_score_bounds (e : TextElement) :
    0 ≤ whitespace_isolation_score e ∧ whitespace_isolation_score e ≤ 10 := by
  unfold whitespace_isolation_score; split_ifs <;> omega

lemma pattern_exclusion_score_bounds (e : TextElement) :
    -100 ≤ pattern_exclusion_score e ∧ pattern_exclusion_score e ≤ 0 := by
  unfold pattern_exclusion_score; split_ifs <;> omega

lemma pattern_exclusion_score_of_not_header {e : TextElement}
    (h : ¬ is_header_footer e = true) : -50 ≤ pattern_exclusion_score e := by
  unfold pattern_exclusion_score
  rw [if_neg h]
  split_ifs <;> omega

/-! Concrete sample elements used by the witnesses, counterexamples and
worked examples below. Page dimensions are the US letter 612 by 792. -/

/-- Sample element A of the ranking example: lowercase, small font, plain
position, italic; it scores 40 on page 0. -/
def elemA : TextElement :=
  { text := "aaaaaaaaaa", font_size := 10, x_position := 0.3, y_position := 0.5,
    page_width := 612, page_height := 792, is_italic := true, width := 0.1 }

/-- Sample element B of the ranking example: 20pt near the top; it scores
85 on page 0. -/
def elemB : TextElement :=
  { text := "bbbbbb", font_size := 20, x_position := 0.3, y_position := 0.75,
    page_width := 612, page_height := 792, is_italic := true, width := 0.1 }

/-- Sample element C of the ranking example: 201 characters long, which
draws the long-text penalty; it scores 10 on page 0. -/
def elemC : TextElement :=
  { text := String.mk (List.replicate 201 'c'), font_size := 10, x_position := 0.3,
    y_position := 0.5, page_width := 612, page_height := 792, is_italic := true, width := 0.1 }

/-- An element gathering every bonus at once: 20pt, first page, centered
near the top, bold, italic, ten uppercase letters, in the whitespace band
but not in the header band. It attains the maximal score 138. -/
def elemMax : TextElement :=
  { text := "AAAAAAAAAA", font_size := 20, x_position := 0.45, y_position := 0.9,
    page_width := 612, page_height := 792, is_bold := true, is_italic := true, width := 0.1 }

/-- An element gathering every penalty at once: 201 characters starting
with page, placed in the footer band, on a page past the second. It
attains the minimal score -110. -/
def elemMin : TextElement :=
  { text := String.mk ('p' :: 'a' :: 'g' :: 'e' :: List.replicate 197 'x'),
    font_size := 10, x_position := 0.3, y_position := 0.01,
    page_width := 612, page_height := 792, width := 0.1 }

/-- A running-header element: in the header band; it scores exactly 0 on
page 0. -/
def elemHdr : TextElement :=
  { text := "Header", font_size := 10, x_position := 0.3, y_position := 0.97,
    page_width := 612, page_height := 792, width := 0.1 }

/-- A page-number element; it scores -65 on page 0. -/
def elemNum : TextElement :=
  { text := "12", font_size := 10, x_position := 0.3, y_position := 0.03,
    page_width := 612, page_height := 792, width := 0.1 }

/-- A strong title element, 24pt bold centered caps near the top; it
scores 133 on page 0. -/
def elemBig : TextElement :=
  { text := "DOCUMENT TITLE", font_size := 24, x_position := 0.45, y_position := 0.9,
    page_width := 612, page_height := 792, is_bold := true, width := 0.1 }

/-- An element whose only text is given, at a neutral position with a
neutral font; used for the string-predicate examples. -/
def sampleElem (t : String) : TextElement :=
  { text := t, font_size := 10, x_position := 0.3, y_position := 0.5,
    page_width := 612, page_height := 792, width := 0.1 }

/-! Concrete score evaluations. -/

lemma score_elemA : calculate_title_score elemA 0 = 40 := by
  have h1 : font_size_score elemA = 0 := by norm_num [font_size_score, elemA]
  have h2 : page_position_score 0 = 25 := by norm_num [page_position_score]
  have h3 : vertical_position_score elemA = 0 := by
    norm_num [vertical_position_score, elemA]
  have h4 : alignment_score elemA = 0 := by
    norm_num [alignment_score, is_centered, is_left_aligned, elemA, abs_lt]
  have h5 : formatting_score elemA = 5 := by norm_num [formatting_score, elemA]
  have h6 : text_length_score elemA = 10 := by decide
  have h7 : all_caps_score elemA = 0 := by decide
  have h8 : whitespace_isolation_score elemA = 0 := by
    norm_num [whitespace_isolation_score, has_significant_whitespace_around, elemA]
  have h9 : pattern_exclusion_score elemA = 0 := by
    have hh : is_header_footer elemA = false := by norm_num [is_header_footer, elemA]
    have hp : is_page_number elemA = false := by decide
    rw [pattern_exclusion_score, hh, hp]
    norm_num
  unfold calculate_title_score
  rw [h1, h2, h3, h4, h5, h6, h7, h8, h9]
  norm_num

lemma score_elemB : calculate_title_score elemB 0 = 85 := by
  have h1 : font_size_score elemB = 40 := by norm_num [font_size_score, elemB]
  have h2 : page_position_score 0 = 25 := by norm_num [page_position_score]
  have h3 : vertical_position_score elemB = 15 := by
    norm_num [vertical_position_score, elemB]
  have h4 : alignment_score elemB = 0 := by
    norm_num [alignment_score, is_centered, is_left_aligned, elemB, abs_lt]
  have h5 : formatting_score elemB = 5 := by norm_num [formatting_score, elemB]
  have h6 : text_length_score elemB = 0 := by decide
  have h7 : all_caps_score elemB = 0 := by decide
  have h8 : whitespace_isolation_score elemB = 0 := by
    norm_num [whitespace_isolation_score, has_significant_whitespace_around, elemB]
  have h9 : pattern_exclusion_score elemB = 0 := by
    have hh : is_header_footer elemB = false := by norm_num [is_header_footer, elemB]
    have hp : is_page_number elemB = false := by decide
    rw [pattern_exclusion_score, hh, hp]
    norm_num
  unfold calculate_title_score
  rw [h1, h2, h3, h4, h5, h6, h7, h8, h9]
  norm_num

lemma score_elemC : calculate_title_score elemC 0 = 10 := by
  have h1 : font_size_score elemC = 0 := by norm_num [font_size_score, elemC]
  have h2 : page_position_score 0 = 25 := by norm_num [page_position_score]
  have h3 : vertical_position_score elemC = 0 := by
    norm_num [vertical_position_score, elemC]
  have h4 : alignment_score elemC = 0 := by
    norm_num [alignment_score, is_centered, is_left_aligned, elemC, abs_lt]
  have h5 : formatting_score elemC = 5 := by norm_num [formatting_score, elemC]
  have h6 : text_length_score elemC = -20 := by decide
  have h7 : all_caps_score elemC = 0 := by decide
  have h8 : whitespace_isolation_score elemC = 0 := by
    norm_num [whitespace_isolation_score, has_significant_whitespace_around, elemC]
  have h9 : pattern_exclusion_score elemC = 0 := by
    have hh : is_header_footer elemC = false := by norm_num [is_header_footer, elemC]
    have hp : is_page_number elemC = false := by decide
    rw [pattern_exclusion_score, hh, hp]
    norm_num
  unfold calculate_title_score
  rw [h1, h2, h3, h4, h5, h6, h7, h8, h9]
  norm_num

lemma score_elemMax : calculate_title_score elemMax 0 = 138 := by
  have h1 : font_size_score elemMax = 40 := by norm_num [font_size_score, elemMax]
  have h2 : page_position_score 0 = 25 := by norm_num [page_position_score]
  have h3 : vertical_position_score elemMax = 15 := by
    norm_num [vertical_position_score, elemMax]
  have h4 : alignment_score elemMax = 15 := by
    norm_num [alignment_score, is_centered, is_left_aligned, elemMax, abs_lt]
  have h5 : formatting_score elemMax = 15 := by norm_num [formatting_score, elemMax]
  have h6 : text_length_score elemMax = 10 := by decide
  have h7 : all_caps_score elemMax = 8 := by decide
  have h8 : whitespace_isolation_score elemMax = 10 := by
    norm_num [whitespace_isolation_score, has_significant_whitespace_around, elemMax]
  have h9 : pattern_exclusion_score elemMax = 0 := by
    have hh : is_header_footer elemMax = false := by norm_num [is_header_footer, elemMax]
    have hp : is_page_number elemMax = false := by decide
    rw [pattern_exclusion_score, hh, hp]
    norm_num
  unfold calculate_title_score
  rw [h1, h2, h3, h4, h5, h6, h7, h8, h9]
  norm_num

lemma score_elemMin : calculate_title_score elemMin 2 = -110 := by
  have h1 : font_size_score elemMin = 0 := by norm_num [font_size_score, elemMin]
  have h2 : page_position_score 2 = 0 := by norm_num [page_position_score]
  have h3 : vertical_position_score elemMin = 0 := by
    norm_num [vertical_position_score, elemMin]
  have h4 : alignment_score elemMin = 0 := by
    norm_num [alignment_score, is_centered, is_left_aligned, elemMin, abs_lt]
  have h5 : formatting_score elemMin = 0 := by norm_num [formatting_score, elemMin]
  have h6 : text_length_score elemMin = -20 := by decide
  have h7 : all_caps_score elemMin = 0 := by decide
  have h8 : whitespace_isolation_score elemMin = 10 := by
    norm_num [whitespace_isolation_score, has_significant_whitespace_around, elemMin]
  have h9 : pattern_exclusion_score elemMin = -100 := by
    have hh : is_header_footer elemMin = true := by norm_num [is_header_footer, elemMin]
    have hp : is_page_number elemMin = true := by decide
    rw [pattern_exclusion_score, hh, hp]
    norm_num
  unfold calculate_title_score
  rw [h1, h2, h3, h4, h5, h6, h7, h8, h9]
  norm_num

lemma score_elemHdr : calculate_title_score elemHdr 0 = 0 := by
  have h1 : font_size_score elemHdr = 0 := by norm_num [font_size_score, elemHdr]
  have h2 : page_position_score 0 = 25 := by norm_num [page_position_score]
  have h3 : vertical_position_score elemHdr = 15 := by
    norm_num [vertical_position_score, elemHdr]
  have h4 : alignment_score elemHdr = 0 := by
    norm_num [alignment_score, is_centered, is_left_aligned, elemHdr, abs_lt]
  have h5 : formatting_score elemHdr = 0 := by norm_num [formatting_score, elemHdr]
  have h6 : text_length_score elemHdr = 0 := by decide
  have h7 : all_caps_score elemHdr = 0 := by decide
  have h8 : whitespace_isolation_score elemHdr = 10 := by
    norm_num [whitespace_isolation_score, has_significant_whitespace_around, elemHdr]
  have h9 : pattern_exclusion_score elemHdr = -50 := by
    have hh : is_header_footer elemHdr = true := by norm_num [is_header_footer, elemHdr]
    have hp : is_page_number elemHdr = false := by decide
    rw [pattern_exclusion_score, hh, hp]
    norm_num
  unfold calculate_title_score
  rw [h1, h2, h3, h4, h5, h6, h7, h8, h9]
  norm_num

lemma score_elemNum : calculate_title_score elemNum 0 = -65 := by
  have h1 : font_size_score elemNum = 0 := by norm_num [font_size_score, elemNum]
  have h2 : page_position_score 0 = 25 := by norm_num [page_position_score]
  have h3 : vertical_position_score elemNum = 0 := by
    norm_num [vertical_position_score, elemNum]
  have h4 : alignment_score elemNum = 0 := by
    norm_num [alignment_score, is_centered, is_left_aligned, elemNum, abs_lt]
  have h5 : formatting_score elemNum = 0 := by norm_num [formatting_score, elemNum]
  have h6 : text_length_score elemNum = 0 := by decide
  have h7 : all_caps_score elemNum = 0 := by decide
  have h8 : whitespace_isolation_score elemNum = 10 := by
    norm_num [whitespace_isolation_score, has_significant_whitespace_around, elemNum]
  have h9 : pattern_exclusion_score elemNum = -100 := by
    have hh : is_header_footer elemNum = true := by norm_num [is_header_footer, elemNum]
    have hp : is_page_number elemNum = true := by decide
    rw [pattern_exclusion_score, hh, hp]
    norm_num
  unfold calculate_title_score
  rw [h1, h2, h3, h4, h5, h6, h7, h8, h9]
  norm_num

lemma score_elemBig : calculate_title_score elemBig 0 = 133 := by
  have h1 : font_size_score elemBig = 40 := by norm_num [font_size_score, elemBig]
  have h2 : page_position_score 0 = 25 := by norm_num [page_position_score]
  have h3 : vertical_position_score elemBig = 15 := by
    norm_num [vertical_position_score, elemBig]
  have h4 : alignment_score elemBig = 15 := by
    norm_num [alignment_score, is_centered, is_left_aligned, elemBig, abs_lt]
  have h5 : formatting_score elemBig = 10 := by norm_num [formatting_score, elemBig]
  have h6 : text_length_score elemBig = 10 := by decide
  have h7 : all_caps_score elemBig = 8 := by decide
  have h8 : whitespace_isolation_score elemBig = 10 := by
    norm_num [whitespace_isolation_score, has_significant_whitespace_around, elemBig]
  have h9 : pattern_exclusion_score elemBig = 0 := by
    have hh : is_header_footer elemBig = false := by norm_num [is_header_footer, elemBig]
    have hp : is_page_number elemBig = false := by decide
    rw [pattern_exclusion_score, hh, hp]
    norm_num
  unfold calculate_title_score
  rw [h1, h2, h3, h4, h5, h6, h7, h8, h9]
  norm_num

/-! Claim theorems. -/

/-- C2 counterexample: the score of a concrete element reaches 138, and
the score of another falls to -110, so the claimed interval [-70, 123]
holds at neither end. -/
theorem score_range_counterexample :
    calculate_title_score elemMax 0 = 138
    ∧ calculate_title_score elemMin 2 = -110
    ∧ ¬(-70 ≤ calculate_title_score elemMax 0 ∧ calculate_title_score elemMax 0 ≤ 123)
    ∧ ¬(-70 ≤ calculate_title_score elemMin 2 ∧ calculate_title_score elemMin 2 ≤ 123) := by
  rw [score_elemMax, score_elemMin]
  norm_num

/-- C2 (amended): for every text element and page index,
`calculate_title_score` returns an integer in the interval [-110, 138].
Both ends are attained, as the counterexample above shows. -/
theorem calculate_title_score_bounds (e : TextElement) (n : Nat) :
    -110 ≤ calculate_title_score e n ∧ calculate_title_score e n ≤ 138 := by
  obtain ⟨h1a, h1b⟩ := font_size_score_bounds e
  obtain ⟨h2a, h2b⟩ := page_position_score_bounds n
  obtain ⟨h3a, h3b⟩ := vertical_position_score_bounds e
  obtain ⟨h4a, h4b⟩ := alignment_score_bounds e
  obtain ⟨h5a, h5b⟩ := formatting_score_bounds e
  obtain ⟨h6a, h6b⟩ := text_length_score_bounds e
  obtain ⟨h7a, h7b⟩ := all_caps_score_bounds e
  obtain ⟨h8a, h8b⟩ := whitespace_isolation_score_bounds e
  obtain ⟨h9a, h9b⟩ := pattern_exclusion_score_bounds e
  unfold calculate_title_score
  by_cases hh : is_header_footer e = true
  · have hws : whitespace_isolation_score e = 10 := by
      simp [whitespace_isolation_score, header_footer_whitespace hh]
    omega
  · have hpx : -50 ≤ pattern_exclusion_score e := pattern_exclusion_score_of_not_header hh
    omega

/-- C9: scoring and candidate selection are deterministic; equal elements
and page indices give equal scores, and equal page lists give the same
title and the same ordered candidate list. -/
theorem scoring_deterministic (e₁ e₂ : TextElement) (n₁ n₂ : Nat) (p₁ p₂ : List Page)
    (he : e₁ = e₂) (hn : n₁ = n₂) (hp : p₁ = p₂) :
    calculate_title_score e₁ n₁ = calculate_title_score e₂ n₂
    ∧ (extract_title p₁).1 = (extract_title p₂).1
    ∧ (extract_title p₁).2 = (extract_title p₂).2 := by
  subst he
  subst hn
  subst hp
  exact ⟨rfl, rfl, rfl⟩

theorem scoring_deterministic_witness :
    elemA = elemA ∧ (0 : Nat) = 0 ∧ ([] : List Page) = []
    ∧ (calculate_title_score elemA 0 = calculate_title_score elemA 0
      ∧ (extract_title []).1 = (extract_title []).1
      ∧ (extract_title []).2 = (extract_title []).2) :=
  ⟨rfl, rfl, rfl, scoring_deterministic elemA elemA 0 0 [] [] rfl rfl rfl⟩

/-- C10: every candidate returned by `extract_title` has a strictly
positive score and a one-based page field among 1, 2, 3, even when the
input has more than three pages. -/
theorem extract_title_candidate_invariant (pdf_pages : List Page) (c : Candidate)
    (hc : c ∈ (extract_title pdf_pages).2) :
    0 < c.score ∧ (c.page = 1 ∨ c.page = 2 ∨ c.page = 3) := by
  rw [extract_title_snd_eq] at hc
  obtain ⟨hs, hlo, hhi⟩ := mem_titleCandidates (List.mem_mergeSort.mp hc)
  exact ⟨hs, by omega⟩

/-- A four-page document whose first and last pages carry a strong title
element; the loop stops before the fourth page. -/
def pagesBig : List Page :=
  [Page.mk [elemBig], Page.mk [], Page.mk [], Page.mk [elemBig]]

theorem extract_title_candidate_invariant_witness :
    mkCandidate elemBig 133 0 ∈ (extract_title pagesBig).2
    ∧ (0 < (mkCandidate elemBig 133 0).score
      ∧ ((mkCandidate elemBig 133 0).page = 1 ∨ (mkCandidate elemBig 133 0).page = 2
        ∨ (mkCandidate elemBig 133 0).page = 3)) := by
  have h2 : titleCandidates 0 pagesBig = [mkCandidate elemBig 133 0] := by
    simp [pagesBig, titleCandidates, pageCandidates, score_elemBig]
  have hmem : mkCandidate elemBig 133 0 ∈ (extract_title pagesBig).2 := by
    rw [extract_title_snd_eq, h2]
    simp
  exact ⟨hmem, extract_title_candidate_invariant pagesBig (mkCandidate elemBig 133 0) hmem⟩

/-- C4: when no element of any page scores positively, `extract_title`
returns the fallback title and the empty candidate list. -/
theorem extract_title_no_candidates (pdf_pages : List Page)
    (h : ∀ (n : Nat) (hn : n < pdf_pages.length), ∀ e ∈ pdf_pages[n].text_elements,
      calculate_title_score e n ≤ 0) :
    extract_title pdf_pages = ("Untitled Document", []) := by
  have hnil : titleCandidates 0 pdf_pages = [] := by
    apply titleCandidates_eq_nil
    intro n hn e he
    rw [Nat.zero_add]
    exact h n hn e he
  unfold extract_title
  rw [hnil, List.mergeSort_nil]

/-- One page carrying only a running header and a page number: both score
nonpositively. -/
def pagesHdr : List Page :=
  [Page.mk [elemHdr, elemNum]]

theorem extract_title_no_candidates_witness :
    (∀ (n : Nat) (hn : n < pagesHdr.length), ∀ e ∈ pagesHdr[n].text_elements,
      calculate_title_score e n ≤ 0)
    ∧ extract_title pagesHdr = ("Untitled Document", []) := by
  have hyp : ∀ (n : Nat) (hn : n < pagesHdr.length), ∀ e ∈ pagesHdr[n].text_elements,
      calculate_title_score e n ≤ 0 := by
    intro n hn e he
    have hn1 : n < 1 := by simpa [pagesHdr] using hn
    interval_cases n
    simp only [pagesHdr, List.getElem_cons_zero] at he
    rcases List.mem_pair.mp (by simpa using he) with rfl | rfl
    · exact le_of_eq score_elemHdr
    · rw [score_elemNum]
      norm_num
  exact ⟨hyp, extract_title_no_candidates pagesHdr hyp⟩

/-- C3: the batch writes exactly one output file per input file, named
stem plus the json suffix, and a failed parse yields the fallback
record. -/
theorem process_pdfs_one_output (inputs : List (String × Except String (List Page)))
    (i : Nat) (stem : String) (parsed : Except String (List Page))
    (h : inputs[i]? = some (stem, parsed)) :
    (process_pdfs inputs).length = inputs.length
    ∧ (process_pdfs inputs)[i]? = some (stem ++ ".json", process_pdf parsed)
    ∧ ∀ msg, parsed = Except.error msg → process_pdf parsed = fallback_data := by
  refine ⟨by simp [process_pdfs], ?_, ?_⟩
  · rw [process_pdfs, List.getElem?_map, h]
    rfl
  · intro msg hmsg
    rw [hmsg]
    rfl

/-- A two-file batch: the first file fails to parse, the second parses. -/
def inputsSample : List (String × Except String (List Page)) :=
  [("doc1", Except.error ("cannot open")), ("doc2", Except.ok [Page.mk [elemBig]])]

theorem process_pdfs_one_output_witness :
    inputsSample[0]? = some ("doc1", Except.error ("cannot open"))
    ∧ ((process_pdfs inputsSample).length = inputsSample.length
      ∧ (process_pdfs inputsSample)[0]?
          = some ("doc1" ++ ".json", process_pdf (Except.error ("cannot open")))
      ∧ ∀ msg, (Except.error ("cannot open") : Except String (List Page)) = Except.error msg →
          process_pdf (Except.error ("cannot open")) = fallback_data) := by
  have h : inputsSample[0]? = some ("doc1", Except.error ("cannot open")) := by
    simp [inputsSample]
  exact ⟨h, process_pdfs_one_output inputsSample 0 ("doc1") (Except.error ("cannot open")) h⟩

/-- C5: the normalizer flips the Y axis: a produced element has
`y_position` equal to one minus the raw bounding box top over the page
height, so the top of the page maps to 1 and the bottom to 0. -/
theorem normalize_span_y_flip (page_width page_height : ℚ) (span : Span) (e : TextElement)
    (hh : 0 < page_height)
    (he : normalize_span page_width page_height span = some e) :
    e.y_position = 1 - span.y0 / page_height
    ∧ (span.y0 = 0 → e.y_position = 1)
    ∧ (span.y0 = page_height → e.y_position = 0) := by
  simp only [normalize_span] at he
  split at he
  · exact absurd he (by simp)
  · obtain rfl := Option.some.inj he
    refine ⟨rfl, ?_, ?_⟩
    · intro h0
      show 1 - span.y0 / page_height = 1
      rw [h0]
      norm_num
    · intro h1
      show 1 - span.y0 / page_height = 0
      rw [h1, div_self hh.ne']
      norm_num

/-- A concrete raw span: 24pt bold text at the very top of a US letter
page. -/
def spanSample : Span :=
  { text := "Hello World", size := 24, flags := 16, x0 := 100, y0 := 0, x1 := 300, y1 := 40 }

/-- The element `normalize_span` produces from `spanSample` on a 612 by
792 page. -/
def elemSpanSample : TextElement :=
  { text := "Hello World", font_size := 24, x_position := 100 / 612,
    y_position := 1 - 0 / 792, page_width := 612, page_height := 792,
    is_bold := true, is_italic := false, width := (300 - 100) / 612 }

theorem normalize_span_y_flip_witness :
    (0 : ℚ) < 792
    ∧ normalize_span 612 792 spanSample = some elemSpanSample
    ∧ (elemSpanSample.y_position = 1 - spanSample.y0 / 792
      ∧ (spanSample.y0 = 0 → elemSpanSample.y_position = 1)
      ∧ (spanSample.y0 = 792 → elemSpanSample.y_position = 0)) := by
  have hstrip : pyStrip ("Hello World") = "Hello World" := by decide
  have hb4 : Nat.testBit 16 4 = true := by decide
  have hb1 : Nat.testBit 16 1 = false := by decide
  have hp : normalize_span 612 792 spanSample = some elemSpanSample := by
    simp [normalize_span, spanSample, elemSpanSample, hstrip, hb4, hb1]
  exact ⟨by norm_num, hp, normalize_span_y_flip 612 792 spanSample elemSpanSample (by norm_num) hp⟩

/-- C6: `is_page_number` holds exactly when the stripped text is purely
digits, or its lowercasing starts with page, or it has at most three
characters; 12, Page 3 and ii are classified as page numbers while
Introduction is not; and the page-number signal contributes exactly -50
to the total score of any element it classifies. -/
theorem is_page_number_spec (e : TextElement) (n : Nat) :
    (is_page_number e = true ↔
      (pyIsDigit (pyStrip e.text) = true
        ∨ pyStartsWith (pyLower (pyStrip e.text)) ("page") = true
        ∨ (pyStrip e.text).length ≤ 3))
    ∧ calculate_title_score e n
        = font_size_score e + page_position_score n + vertical_position_score e
          + alignment_score e + formatting_score e + text_length_score e
          + all_caps_score e + whitespace_isolation_score e
          + (if is_header_footer e then (-50 : Int) else 0)
          + (if is_page_number e then (-50 : Int) else 0)
    ∧ is_page_number (sampleElem ("12")) = true
    ∧ is_page_number (sampleElem ("Page 3")) = true
    ∧ is_page_number (sampleElem ("ii")) = true
    ∧ is_page_number (sampleElem ("Introduction")) = false := by
  refine ⟨?_, ?_, by decide, by decide, by decide, by decide⟩
  · simp [is_page_number, Bool.or_eq_true, decide_eq_true_eq, or_assoc]
  · unfold calculate_title_score pattern_exclusion_score
    ring

/-- C7 counterexample: for the text 123456, Python upper leaves the text
unchanged and the raw length exceeds 5, yet the code adds no all-caps
bonus, because line 141 tests isupper, which is false for a string
without a cased character. -/
theorem all_caps_counterexample :
    ¬ (all_caps_score (sampleElem ("123456")) = 8 ↔
      (pyToUpper (sampleElem ("123456")).text = (sampleElem ("123456")).text
        ∧ 5 < (sampleElem ("123456")).text.length)) := by
  decide

/-- C7 (amended): the all-caps signal contributes exactly +8 to the score
when the raw text satisfies Python isupper (it has a cased character and
no lowercase one) and the stripped text is longer than five characters,
and contributes 0 otherwise. -/
theorem all_caps_spec (e : TextElement) (n : Nat) :
    calculate_title_score e n
      = font_size_score e + page_position_score n + vertical_position_score e
        + alignment_score e + formatting_score e + text_length_score e
        + whitespace_isolation_score e + pattern_exclusion_score e
        + all_caps_score e
    ∧ (all_caps_score e = 8 ↔ (pyIsUpper e.text = true ∧ 5 < (pyStrip e.text).length))
    ∧ (all_caps_score e = 8 ∨ all_caps_score e = 0) := by
  refine ⟨by unfold calculate_title_score; ring, ?_, ?_⟩
  · unfold all_caps_score
    split_ifs with h
    · simp [h]
    · simp only [h, iff_false]
      omega
  · unfold all_caps_score
    split_ifs <;> simp

/-- A centered sample element: midpoint 0.5. -/
def elemCen : TextElement :=
  { text := "Annual Report 2024", font_size := 12, x_position := 0.45, y_position := 0.5,
    page_width := 612, page_height := 792, width := 0.1 }

/-- An uncentered sample element: midpoint 0.65. -/
def elemMid : TextElement :=
  { text := "Annual Report 2024", font_size := 12, x_position := 0.6, y_position := 0.5,
    page_width := 612, page_height := 792, width := 0.1 }

/-- A left-aligned, uncentered sample element: x 0.1, midpoint 0.15. -/
def elemLeft : TextElement :=
  { text := "Annual Report 2024", font_size := 12, x_position := 0.1, y_position := 0.5,
    page_width := 612, page_height := 792, width := 0.1 }

/-- C8: `is_centered` holds exactly when the horizontal midpoint is
strictly within 0.1 of the page center; the alignment chain gives a
centered element +15 and otherwise a left-aligned one +5, never both,
so its contribution is always 15, 5 or 0; an element with x 0.45 and
width 0.1 is centered while one with midpoint 0.65 is not, and the
left-aligned sample receives 5. -/
theorem is_centered_spec (e : TextElement) (n : Nat) :
    (is_centered e = true ↔ |e.x_position + e.width / 2 - 0.5| < 0.1)
    ∧ calculate_title_score e n
        = font_size_score e + page_position_score n + vertical_position_score e
          + formatting_score e + text_length_score e + all_caps_score e
          + whitespace_isolation_score e + pattern_exclusion_score e
          + alignment_score e
    ∧ alignment_score e
        = (if is_centered e then 15 else if is_left_aligned e then 5 else 0)
    ∧ (alignment_score e = 15 ∨ alignment_score e = 5 ∨ alignment_score e = 0)
    ∧ (is_centered e = true ↔ alignment_score e = 15)
    ∧ is_centered elemCen = true ∧ alignment_score elemCen = 15
    ∧ is_centered elemMid = false ∧ is_left_aligned elemMid = false
    ∧ alignment_score elemMid = 0
    ∧ is_centered elemLeft = false ∧ is_left_aligned elemLeft = true
    ∧ alignment_score elemLeft = 5 := by
  refine ⟨?_, by unfold calculate_title_score; ring, rfl, ?_, ?_, ?_, ?_, ?_, ?_, ?_, ?_, ?_, ?_⟩
  · simp [is_centered]
  · unfold alignment_score
    split_ifs <;> simp
  · unfold alignment_score
    split_ifs with h1 h2 <;> simp [h1]
  · norm_num [is_centered, elemCen, abs_lt]
  · norm_num [alignment_score, is_centered, is_left_aligned, elemCen, abs_lt]
  · norm_num [is_centered, elemMid, abs_lt]
  · norm_num [is_left_aligned, elemMid]
  · norm_num [alignment_score, is_centered, is_left_aligned, elemMid, abs_lt]
  · norm_num [is_centered, elemLeft, abs_lt]
  · norm_num [is_left_aligned, elemLeft]
  · norm_num [alignment_score, is_centered, is_left_aligned, elemLeft, abs_lt]

/-- C1: `extract_title` looks only at the first three pages, returns the
collected positive-score candidates sorted stably by descending score,
and takes the top text as title, with the fallback title on an empty
candidate list; elements scoring 40, 85, 10 in encounter order rank as
85, 40, 10 and the 85 one provides the title. -/
theorem extract_title_selection (pdf_pages : List Page) :
    extract_title pdf_pages = extract_title (pdf_pages.take 3)
    ∧ ((extract_title pdf_pages).2).Perm (titleCandidates 0 pdf_pages)
    ∧ ((extract_title pdf_pages).2).Pairwise (fun a b => b.score ≤ a.score)
    ∧ (∀ s : Int, ((extract_title pdf_pages).2).filter (fun c => decide (c.score = s))
        = (titleCandidates 0 pdf_pages).filter (fun c => decide (c.score = s)))
    ∧ (extract_title pdf_pages).1
        = (((extract_title pdf_pages).2).map Candidate.text).headD ("Untitled Document")
    ∧ calculate_title_score elemA 0 = 40
    ∧ calculate_title_score elemB 0 = 85
    ∧ calculate_title_score elemC 0 = 10
    ∧ extract_title [Page.mk [elemA, elemB, elemC]]
        = (elemB.text, [mkCandidate elemB 85 0, mkCandidate elemA 40 0, mkCandidate elemC 10 0]) := by
  refine ⟨?_, ?_, ?_, ?_, extract_title_fst_eq pdf_pages,
    score_elemA, score_elemB, score_elemC, ?_⟩
  · have ht := titleCandidates_take 0 pdf_pages (by omega)
    simp only [Nat.sub_zero] at ht
    unfold extract_title
    rw [ht]
  · rw [extract_title_snd_eq]
    exact List.mergeSort_perm _ _
  · rw [extract_title_snd_eq]
    have hp := List.sorted_mergeSort scoreDescLE_trans scoreDescLE_total (titleCandidates 0 pdf_pages)
    exact hp.imp (fun hab => by simpa [scoreDescLE, decide_eq_true_eq] using hab)
  · intro s
    rw [extract_title_snd_eq]
    exact filter_score_mergeSort _ s
  · have hc : titleCandidates 0 [Page.mk [elemA, elemB, elemC]]
        = [mkCandidate elemA 40 0, mkCandidate elemB 85 0, mkCandidate elemC 10 0] := by
      simp [titleCandidates, pageCandidates, score_elemA, score_elemB, score_elemC]
    have hsort :
        [mkCandidate elemA 40 0, mkCandidate elemB 85 0,
          mkCandidate elemC 10 0].mergeSort scoreDescLE
        = [mkCandidate elemB 85 0, mkCandidate elemA 40 0, mkCandidate elemC 10 0] := by
      simp [List.mergeSort, List.merge, scoreDescLE, mkCandidate]
    unfold extract_title
    rw [hc, hsort]
    simp [mkCandidate]
